import Mathlib

/-!
Verification of the `sgr-agent-core` context-budget manager and infinite-agent
state handling, as a shallow embedding of the Python sources:

* `sgr_deep_research/core/context_manager.py` (`ContextWindowManager`)
* `sgr_deep_research/core/agents/sgr_infinite_auto_tool_calling_agent.py`
* `sgr_deep_research/api/endpoints.py` (`create_chat_completion` continuation branch)
* `sgr_deep_research/core/tools/mem_tools/read_file_tool.py` (`ReadFileTool`)

Python dictionaries for chat messages become structures; the tiktoken encoder
is abstracted as a function `enc : String → Nat` giving the token length of a
string (the claims hold for every such function); Python integers are `Int` /
`Nat` (no machine overflow is involved); the asyncio `Event` gate becomes a
`Bool` field in explicit state passing.
-/

namespace SgrAgentCore

/-- The `function` payload of a tool call: `{"name": ..., "arguments": ...}`. -/
structure ToolFunction where
  name : String
  arguments : String
deriving DecidableEq, Repr

/-- One element of a message's `tool_calls` list; `function` may be absent
(`tool_call.get("function")`). -/
structure ToolCall where
  function : Option ToolFunction
deriving DecidableEq, Repr

/-- A chat message dictionary.  `content = ""` models a missing or falsy
`content` entry and `tool_calls = []` a missing or empty `tool_calls` entry,
matching Python truthiness in `ContextWindowManager.count_tokens`. -/
structure Message where
  role : String
  content : String
  tool_calls : List ToolCall
deriving DecidableEq, Repr

/-- Embeds `ContextWindowManager.__init__`: the stored configuration.  `enc` abstracts
the tiktoken encoding: `enc s` is `len(self.encoding.encode(s))`. -/
structure ContextWindowManager where
  max_tokens : Int
  system_prompt_reserve : Int
  response_reserve : Int
  enc : String → Nat

/-- Embeds `self.available_tokens = max_tokens - system_prompt_reserve - response_reserve`. -/
def ContextWindowManager.available_tokens (cm : ContextWindowManager) : Int :=
  cm.max_tokens - cm.system_prompt_reserve - cm.response_reserve

/-- Tokens contributed by one element of `message["tool_calls"]`:
`len(encode(function.name + function.arguments))`, 0 when `function` is absent. -/
def toolCallTokens (enc : String → Nat) (tc : ToolCall) : Nat :=
  match tc.function with
  | some f => enc (f.name ++ f.arguments)
  | none => 0

/-- Tokens of a single message inside `ContextWindowManager.count_tokens`:
4 for role overhead, plus content tokens when `content` is truthy, plus
tool-call tokens when `tool_calls` is truthy. -/
def messageTokens (enc : String → Nat) (m : Message) : Nat :=
  4
    + (if m.content = "" then 0 else enc m.content)
    + (if m.tool_calls = [] then 0 else (m.tool_calls.map (toolCallTokens enc)).sum)

/-- Embeds `ContextWindowManager.count_tokens`: sum over all messages. -/
def ContextWindowManager.count_tokens (cm : ContextWindowManager)
    (messages : List Message) : Nat :=
  (messages.map (messageTokens cm.enc)).sum

/-- The name set checked inside `smart_truncate` for "important" tool calls. -/
def importantToolNames : List String :=
  ["finalanswertool", "createreporttool", "websearchtool"]

/-- Embeds `tc.get("function", {}).get("name", "")`. -/
def toolCallName (tc : ToolCall) : String :=
  match tc.function with
  | some f => f.name
  | none => ""

/-- The per-message classification of the middle-message loop in
`smart_truncate`: tool-result messages (when `preserve_tool_results`), else
messages whose tool calls include one of `importantToolNames`. -/
def isImportantMessage (preserve_tool_results : Bool) (m : Message) : Bool :=
  if preserve_tool_results && m.role == "tool" then true
  else if !m.tool_calls.isEmpty then
    (m.tool_calls.map toolCallName).any (fun n => importantToolNames.contains n)
  else false

/-- Embeds `initial_task = [conversation[0]] if conversation else []`. -/
def initialTask (conversation : List Message) : List Message :=
  match conversation with
  | [] => []
  | c :: _ => [c]

/-- Embeds `recent_threshold = max(1, len(conversation) - 8)` (Python int arithmetic;
for `len ≤ 8` both the Python value and the truncated `Nat` value give 1). -/
def recentThreshold (conversation : List Message) : Nat :=
  max 1 (conversation.length - 8)

/-- The `recent_messages` accumulated by the loop
`for idx, msg in enumerate(conversation[1:], start=1): if idx >= recent_threshold`. -/
def recentMessages (conversation : List Message) : List Message :=
  ((List.enumFrom 1 (conversation.drop 1)).filter
    (fun p => decide (recentThreshold conversation ≤ p.1))).map Prod.snd

/-- The `important_messages` accumulated by the same loop: middle messages
(`idx < recent_threshold`) passing `isImportantMessage`. -/
def importantMessages (preserve_tool_results : Bool)
    (conversation : List Message) : List Message :=
  ((List.enumFrom 1 (conversation.drop 1)).filter
    (fun p => decide (p.1 < recentThreshold conversation)
      && isImportantMessage preserve_tool_results p.2)).map Prod.snd

/-- The synthetic summary message built in `smart_truncate`'s fallback branch. -/
def summaryMessage (removed_count : Nat) : Message :=
  { role := "system",
    content := "[Context optimized: " ++ toString removed_count
      ++ " intermediate messages removed]",
    tool_calls := [] }

/-- Embeds Python `l[-n:]`: the last `n` elements (all of `l` when shorter). -/
def takeLast (n : Nat) (l : List α) : List α :=
  l.drop (l.length - n)

/-- Embeds `ContextWindowManager.smart_truncate` (context_manager.py lines 155-220). -/
def ContextWindowManager.smart_truncate (cm : ContextWindowManager)
    (conversation : List Message) (preserve_tool_results : Bool) : List Message :=
  let current_tokens := cm.count_tokens conversation
  if (current_tokens : Int) ≤ cm.available_tokens then
    conversation
  else
    let initial_task := initialTask conversation
    let important_messages := importantMessages preserve_tool_results conversation
    let recent_messages := recentMessages conversation
    let truncated := initial_task ++ important_messages ++ recent_messages
    if (cm.count_tokens truncated : Int) > cm.available_tokens then
      let removed_count := important_messages.length
      initial_task ++ [summaryMessage removed_count] ++ takeLast 6 recent_messages
    else
      truncated

/-- Modelled from the spec: `AgentStatesEnum` lives in `core/models.py`, which is
not among the provided sources; §4.3 of the spec lists the states
`CREATED → RESEARCHING ⇄ WAITING_FOR_CLARIFICATION → COMPLETED | FAILED`. -/
inductive AgentStatesEnum
  | CREATED
  | RESEARCHING
  | WAITING_FOR_CLARIFICATION
  | COMPLETED
  | FAILED
deriving DecidableEq, Repr

/-- Modelled from the spec: `AgentStatesEnum.FINISH_STATES` (used by
`continue_conversation`) — the terminal states, `COMPLETED` and `FAILED`
per §4.3 ("`COMPLETED` and `FAILED` are terminal"). -/
def FINISH_STATES : List AgentStatesEnum :=
  [AgentStatesEnum.COMPLETED, AgentStatesEnum.FAILED]

/-- The mutable fields of an `SGRInfiniteAutoToolCallingAgent` the claims are
about: `self._context.state`, `self.user_requested_stop`, the asyncio event
`self._context.clarification_received` (`true` = set), and
`self.conversation`. -/
structure InfiniteAgentState where
  state : AgentStatesEnum
  user_requested_stop : Bool
  clarification_received : Bool
  conversation : List Message
deriving DecidableEq, Repr

/-- The stop phrases checked by `continue_conversation`. -/
def stopPhrases : List String :=
  ["stop", "finish", "end", "завершить", "стоп", "закончить"]

/-- Python's `str.lower()`, applied character-wise.  (`Char.toLower` covers the
ASCII range; the stop phrases in `stopPhrases` are already lowercase, so a
lowercase input matches exactly as in the source.) -/
def pyLower (s : String) : String :=
  String.mk (s.data.map Char.toLower)

/-- Python's `str.strip()`: drop whitespace from both ends. -/
def pyStrip (s : String) : String :=
  String.mk
    (((s.data.dropWhile Char.isWhitespace).reverse.dropWhile
        Char.isWhitespace).reverse)

/-- A `{"role": "user", "content": ...}` message. -/
def userMessage (content : String) : Message :=
  { role := "user", content := content, tool_calls := [] }

/-- A `{"role": "system", "content": ...}` message. -/
def systemMessage (content : String) : Message :=
  { role := "system", content := content, tool_calls := [] }

/-- Embeds `SGRInfiniteAutoToolCallingAgent.continue_conversation` (lines 112-142):
on a stop phrase set `user_requested_stop`, force `COMPLETED` and append the
stop notice; otherwise append the user message and reset a finished state to
`RESEARCHING`. -/
def continue_conversation (st : InfiniteAgentState) (user_message : String) :
    InfiniteAgentState :=
  if stopPhrases.contains (pyStrip (pyLower user_message)) then
    { st with
      user_requested_stop := true,
      state := AgentStatesEnum.COMPLETED,
      conversation := st.conversation
        ++ [userMessage "User requested to stop the conversation."] }
  else
    let st1 := { st with conversation := st.conversation ++ [userMessage user_message] }
    if FINISH_STATES.contains st1.state then
      { st1 with state := AgentStatesEnum.RESEARCHING }
    else
      st1

/-- The infinite-agent continuation branch of `create_chat_completion`
(endpoints.py lines 128-148): run `continue_conversation`, then set the
`clarification_received` event only when `user_requested_stop` is false. -/
def create_chat_completion_continuation (st : InfiniteAgentState)
    (user_message : String) : InfiniteAgentState :=
  let st1 := continue_conversation st user_message
  if !st1.user_requested_stop then
    { st1 with clarification_received := true }
  else
    st1

/-- The kinds of tool the infinite execute loop distinguishes
(`action_tool.__class__.__name__ == "ClarificationTool"`,
`isinstance(action_tool, FinalAnswerTool)`, anything else). -/
inductive ToolKind
  | ClarificationTool
  | FinalAnswerTool
  | OtherTool
deriving DecidableEq, Repr

/-- Embeds `SGRInfiniteAutoToolCallingAgent._select_action_phase` (lines 87-110), the
part after the parent call: in infinite mode, a `FinalAnswerTool` whose
`status` is `COMPLETED` is intercepted when no stop was requested and the
state is moved back to `RESEARCHING`.  `tool_status` is the selected tool's
`status` attribute (set by the parent class, outside the provided sources). -/
def select_action_interception (st : InfiniteAgentState) (tool : ToolKind)
    (is_infinite : Bool) (tool_status : AgentStatesEnum) : InfiniteAgentState :=
  if tool = ToolKind.FinalAnswerTool ∧ is_infinite = true
      ∧ st.user_requested_stop = false ∧ tool_status = AgentStatesEnum.COMPLETED then
    { st with state := AgentStatesEnum.RESEARCHING }
  else
    st

/-- Modelled from the spec: the parent class's `_action_phase`
(`core/agents/sgr_tools_agent.py`, not among the provided sources).  Per §4.4
step 5 and §4.3, the tool's effect appends its result to the conversation and
only an answer-producing tool (`FinalAnswerTool`) requests the `COMPLETED`
state; other tools leave the state unchanged. -/
def action_phase (st : InfiniteAgentState) (tool : ToolKind) (result : Message) :
    InfiniteAgentState :=
  let st1 := { st with conversation := st.conversation ++ [result] }
  if tool = ToolKind.FinalAnswerTool then
    { st1 with state := AgentStatesEnum.COMPLETED }
  else
    st1

/-- The tail of one pass of `SGRInfiniteAutoToolCallingAgent.execute`'s loop
body (lines 176-193): a `ClarificationTool` pauses; a `FinalAnswerTool`
without a recorded stop request also pauses (state becomes
`WAITING_FOR_CLARIFICATION` and the resume gate is cleared before waiting). -/
def execute_post_action (st : InfiniteAgentState) (tool : ToolKind) :
    InfiniteAgentState :=
  if tool = ToolKind.ClarificationTool then
    { st with
      state := AgentStatesEnum.WAITING_FOR_CLARIFICATION,
      clarification_received := false }
  else if tool = ToolKind.FinalAnswerTool ∧ st.user_requested_stop = false then
    { st with
      state := AgentStatesEnum.WAITING_FOR_CLARIFICATION,
      clarification_received := false }
  else
    st

/-- One full iteration of the infinite execute loop as far as the agent state
is concerned: selection interception (the agent has `is_infinite = True`),
action phase, then the loop-body tail. -/
def execute_iteration (st : InfiniteAgentState) (tool : ToolKind)
    (tool_status : AgentStatesEnum) (result : Message) : InfiniteAgentState :=
  execute_post_action (action_phase (select_action_interception st tool true tool_status) tool result) tool

/-- The transitions an external observer can see on an infinite agent's state:
a loop iteration (with an arbitrary selected tool, tool status and tool
result), or a continuation request through the chat-completions endpoint. -/
inductive AgentStep : InfiniteAgentState → InfiniteAgentState → Prop
  | iteration (st : InfiniteAgentState) (tool : ToolKind)
      (tool_status : AgentStatesEnum) (result : Message) :
      AgentStep st (execute_iteration st tool tool_status result)
  | continuation (st : InfiniteAgentState) (msg : String) :
      AgentStep st (create_chat_completion_continuation st msg)

/-- The invariant of claim C3: `COMPLETED` is only ever reached with the stop
signal recorded. -/
def AgentInv (st : InfiniteAgentState) : Prop :=
  st.state = AgentStatesEnum.COMPLETED → st.user_requested_stop = true

/-- Embeds `SGRInfiniteAutoToolCallingAgent._prepare_context` (lines 52-85) in
explicit state-passing form: it reads `self.conversation`, truncates it with
`preserve_tool_results=True` and returns the fresh outbound list headed by the
system prompt; the agent state is returned as left by the source (which only
reads it). -/
def _prepare_context (cm : ContextWindowManager) (system_prompt_content : String)
    (agent : InfiniteAgentState) : InfiniteAgentState × List Message :=
  let truncated := cm.smart_truncate agent.conversation true
  (agent, systemMessage system_prompt_content :: truncated)

/-- The outcome the OS gives a read attempt on an (existing, regular) file:
the content, a `PermissionError`, or any other exception with its message. -/
inductive ReadOutcome
  | ok (content : String)
  | permissionError
  | otherError (msg : String)
deriving DecidableEq, Repr

/-- The parts of the filesystem state `ReadFileTool.__call__` consults:
`os.path.exists`, `os.path.isfile`, and what `open(...).read()` does. -/
structure FileSystem where
  pathExists : String → Bool
  isfile : String → Bool
  readResult : String → ReadOutcome

/-- Embeds `ReadFileTool.__call__` (read_file_tool.py lines 25-39).  Every branch of
the source returns a string: the two guard checks, the successful read, the
`PermissionError` handler and the catch-all `except Exception` handler. -/
def ReadFileTool.call (fs : FileSystem) (file_path : String) : String :=
  if !fs.pathExists file_path then
    "Error: File " ++ file_path ++ " does not exist"
  else if !fs.isfile file_path then
    "Error: " ++ file_path ++ " is not a file"
  else
    match fs.readResult file_path with
    | ReadOutcome.ok content => content
    | ReadOutcome.permissionError =>
        "Error: Permission denied accessing " ++ file_path
    | ReadOutcome.otherError e => "Error: " ++ e

/-! ### Helper lemmas about the middle-message classification -/

lemma enumFrom_filter_ge_map_snd (l : List α) (k n : Nat) :
    (((List.enumFrom k l).filter (fun p => decide (n ≤ p.1))).map Prod.snd)
      = l.drop (n - k) := by
  induction l generalizing k with
  | nil => simp
  | cons a t ih =>
    simp only [List.enumFrom, List.filter_cons]
    by_cases h : n ≤ k
    · have hnk : n - k = 0 := Nat.sub_eq_zero_of_le h
      have hnk1 : n - (k + 1) = 0 := Nat.sub_eq_zero_of_le (Nat.le_succ_of_le h)
      simp [h, ih, hnk, hnk1]
    · have hk : k < n := Nat.lt_of_not_le h
      have hstep : n - k = (n - (k + 1)) + 1 := by omega
      simp [h, ih, hstep]

lemma enumFrom_filter_lt_map_snd (l : List α) (k n : Nat) (f : α → Bool) :
    (((List.enumFrom k l).filter (fun p => decide (p.1 < n) && f p.2)).map Prod.snd)
      = (l.take (n - k)).filter f := by
  induction l generalizing k with
  | nil => simp
  | cons a t ih =>
    simp only [List.enumFrom, List.filter_cons]
    by_cases h : k < n
    · have hstep : n - k = (n - (k + 1)) + 1 := by omega
      by_cases hf : f a
      · simp [h, hf, ih, hstep, List.filter_cons]
      · simp [h, hf, ih, hstep, List.filter_cons]
    · have hnk : n - k = 0 := Nat.sub_eq_zero_of_le (Nat.le_of_not_lt h)
      have hnk1 : n - (k + 1) = 0 := by omega
      simp [h, ih, hnk, hnk1]

lemma recentMessages_eq (conversation : List Message) :
    recentMessages conversation
      = (conversation.drop 1).drop (recentThreshold conversation - 1) := by
  unfold recentMessages
  exact enumFrom_filter_ge_map_snd _ 1 _

lemma importantMessages_eq (preserve_tool_results : Bool)
    (conversation : List Message) :
    importantMessages preserve_tool_results conversation
      = ((conversation.drop 1).take (recentThreshold conversation - 1)).filter
          (isImportantMessage preserve_tool_results) := by
  unfold importantMessages
  exact enumFrom_filter_lt_map_snd _ 1 _ _

lemma recentMessages_sublist (conversation : List Message) :
    List.Sublist (recentMessages conversation) (conversation.drop 1) := by
  rw [recentMessages_eq]
  exact List.drop_sublist _ _

lemma important_append_recent_sublist (preserve_tool_results : Bool)
    (conversation : List Message) :
    List.Sublist
      (importantMessages preserve_tool_results conversation
        ++ recentMessages conversation)
      (conversation.drop 1) := by
  rw [importantMessages_eq, recentMessages_eq]
  have h := List.Sublist.append
    (List.filter_sublist (l := (conversation.drop 1).take (recentThreshold conversation - 1))
      (p := isImportantMessage preserve_tool_results))
    (List.Sublist.refl ((conversation.drop 1).drop (recentThreshold conversation - 1)))
  rwa [List.take_append_drop] at h

lemma initialTask_append_sublist (conversation l : List Message)
    (h : List.Sublist l (conversation.drop 1)) :
    List.Sublist (initialTask conversation ++ l) conversation := by
  cases conversation with
  | nil =>
      simp only [List.drop_nil] at h
      simpa [initialTask] using h
  | cons c rest =>
      simp only [List.drop_succ_cons, List.drop_zero] at h
      simpa [initialTask] using List.Sublist.cons₂ c h

lemma takeLast_sublist (n : Nat) (l : List α) : List.Sublist (takeLast n l) l :=
  List.drop_sublist _ _

lemma takeLast_length_le (n : Nat) (l : List α) : (takeLast n l).length ≤ n := by
  simp only [takeLast, List.length_drop]
  omega

/-! ### Branch characterizations of `smart_truncate` -/

lemma smart_truncate_fast_path (cm : ContextWindowManager)
    (conversation : List Message) (preserve_tool_results : Bool)
    (h : (cm.count_tokens conversation : Int) ≤ cm.available_tokens) :
    cm.smart_truncate conversation preserve_tool_results = conversation := by
  unfold ContextWindowManager.smart_truncate
  rw [if_pos h]

lemma smart_truncate_middle_path (cm : ContextWindowManager)
    (conversation : List Message) (preserve_tool_results : Bool)
    (h1 : ¬ (cm.count_tokens conversation : Int) ≤ cm.available_tokens)
    (h2 : ¬ (cm.count_tokens
        (initialTask conversation
          ++ importantMessages preserve_tool_results conversation
          ++ recentMessages conversation) : Int) > cm.available_tokens) :
    cm.smart_truncate conversation preserve_tool_results
      = initialTask conversation
          ++ importantMessages preserve_tool_results conversation
          ++ recentMessages conversation := by
  unfold ContextWindowManager.smart_truncate
  rw [if_neg h1, if_neg h2]

lemma smart_truncate_fallback (cm : ContextWindowManager)
    (conversation : List Message) (preserve_tool_results : Bool)
    (h1 : ¬ (cm.count_tokens conversation : Int) ≤ cm.available_tokens)
    (h2 : (cm.count_tokens
        (initialTask conversation
          ++ importantMessages preserve_tool_results conversation
          ++ recentMessages conversation) : Int) > cm.available_tokens) :
    cm.smart_truncate conversation preserve_tool_results
      = initialTask conversation
          ++ [summaryMessage (importantMessages preserve_tool_results conversation).length]
          ++ takeLast 6 (recentMessages conversation) := by
  unfold ContextWindowManager.smart_truncate
  rw [if_neg h1, if_pos h2]

/-- The general shape of `smart_truncate`'s output: either a subsequence of the
input, or a subsequence of the input with one synthetic summary message
inserted. -/
lemma smart_truncate_shape (cm : ContextWindowManager)
    (conversation : List Message) (preserve_tool_results : Bool) :
    List.Sublist (cm.smart_truncate conversation preserve_tool_results) conversation
    ∨ ∃ k l1 l2,
        cm.smart_truncate conversation preserve_tool_results
          = l1 ++ [summaryMessage k] ++ l2
        ∧ List.Sublist (l1 ++ l2) conversation := by
  by_cases h1 : (cm.count_tokens conversation : Int) ≤ cm.available_tokens
  · left
    rw [smart_truncate_fast_path cm conversation preserve_tool_results h1]
  · by_cases h2 : (cm.count_tokens
        (initialTask conversation
          ++ importantMessages preserve_tool_results conversation
          ++ recentMessages conversation) : Int) > cm.available_tokens
    · right
      refine ⟨(importantMessages preserve_tool_results conversation).length,
        initialTask conversation, takeLast 6 (recentMessages conversation),
        smart_truncate_fallback cm conversation preserve_tool_results h1 h2, ?_⟩
      exact initialTask_append_sublist _ _
        ((takeLast_sublist 6 _).trans (recentMessages_sublist conversation))
    · left
      rw [smart_truncate_middle_path cm conversation preserve_tool_results h1 h2,
        List.append_assoc]
      exact initialTask_append_sublist _ _
        (important_append_recent_sublist preserve_tool_results conversation)

/-- When the input is non-empty and over budget, both truncating branches keep
the initial task message in front. -/
lemma smart_truncate_head (cm : ContextWindowManager)
    (conversation : List Message) (preserve_tool_results : Bool)
    (hne : conversation ≠ [])
    (h1 : ¬ (cm.count_tokens conversation : Int) ≤ cm.available_tokens) :
    (cm.smart_truncate conversation preserve_tool_results).head?
      = conversation.head? := by
  obtain ⟨c, rest, rfl⟩ : ∃ c rest, conversation = c :: rest := by
    cases conversation with
    | nil => exact absurd rfl hne
    | cons c rest => exact ⟨c, rest, rfl⟩
  by_cases h2 : (cm.count_tokens
      (initialTask (c :: rest)
        ++ importantMessages preserve_tool_results (c :: rest)
        ++ recentMessages (c :: rest)) : Int) > cm.available_tokens
  · rw [smart_truncate_fallback cm _ preserve_tool_results h1 h2]
    simp [initialTask]
  · rw [smart_truncate_middle_path cm _ preserve_tool_results h1 h2]
    simp [initialTask]

/-! ### Concrete instances used by witnesses and counterexamples -/

/-- A plain user message with the given content. -/
def umsg (c : String) : Message :=
  { role := "user", content := c, tool_calls := [] }

/-- A tool-result message with the given content. -/
def toolMsg (c : String) : Message :=
  { role := "tool", content := c, tool_calls := [] }

/-- A manager with a comfortably large budget (used by witnesses). -/
def cmLarge : ContextWindowManager :=
  { max_tokens := 1000, system_prompt_reserve := 200, response_reserve := 200,
    enc := String.length }

/-- A manager whose available budget is exactly 45 length-tokens. -/
def cmTight : ContextWindowManager :=
  { max_tokens := 45, system_prompt_reserve := 0, response_reserve := 0,
    enc := String.length }

/-- Ten cheap single-letter user messages (4 + 1 tokens each, 50 in total). -/
def convTen : List Message :=
  [umsg "a", umsg "b", umsg "c", umsg "d", umsg "e",
   umsg "f", umsg "g", umsg "h", umsg "i", umsg "j"]

/-- A manager whose available budget is exactly 36 length-tokens. -/
def cmNarrow : ContextWindowManager :=
  { max_tokens := 36, system_prompt_reserve := 0, response_reserve := 0,
    enc := String.length }

/-- Nine messages costing 37 length-tokens: one single-letter task message and
eight empty-content messages. -/
def convNine : List Message :=
  [umsg "a", umsg "", umsg "", umsg "", umsg "", umsg "", umsg "", umsg "",
   umsg ""]

/-- A manager with zero available budget. -/
def cmZero : ContextWindowManager :=
  { max_tokens := 0, system_prompt_reserve := 0, response_reserve := 0,
    enc := String.length }

/-- Ten messages whose index-1 message is a tool result (hence classified as
important by `smart_truncate`). -/
def convWithTool : List Message :=
  [umsg "a", toolMsg "t", umsg "c", umsg "d", umsg "e",
   umsg "f", umsg "g", umsg "h", umsg "i", umsg "j"]

/-! ### Claims about the context manager -/

/-- C4: for every conversation `C` with `count(C) ≤ availableTokens`,
`smart_truncate` returns `C` unchanged (identity on the fast path). -/
theorem smart_truncate_identity_under_budget (cm : ContextWindowManager)
    (conversation : List Message) (preserve_tool_results : Bool)
    (h : (cm.count_tokens conversation : Int) ≤ cm.available_tokens) :
    cm.smart_truncate conversation preserve_tool_results = conversation :=
  smart_truncate_fast_path cm conversation preserve_tool_results h

/-- Witness for C4 at a concrete under-budget conversation. -/
theorem smart_truncate_identity_under_budget_witness :
    (cmLarge.count_tokens convTen : Int) ≤ cmLarge.available_tokens
    ∧ cmLarge.smart_truncate convTen true = convTen :=
  ⟨by decide,
   smart_truncate_identity_under_budget cmLarge convTen true (by decide)⟩

/-- A message is non-empty when it carries content or tool calls. -/
def Message.nonempty (m : Message) : Prop :=
  m.content ≠ "" ∨ m.tool_calls ≠ []

/-- C7: `count_tokens` (a pure function, hence deterministic) is strictly
monotonic under appending a non-empty message, and is always a non-negative
integer.  (The per-message role overhead of 4 makes the count strictly grow
for any appended message.) -/
theorem count_tokens_append_strict_mono (cm : ContextWindowManager)
    (C : List Message) (m : Message) (_h : m.nonempty) :
    cm.count_tokens C < cm.count_tokens (C ++ [m])
    ∧ 0 ≤ (cm.count_tokens C : Int) := by
  refine ⟨?_, Int.natCast_nonneg _⟩
  unfold ContextWindowManager.count_tokens
  rw [List.map_append, List.sum_append]
  have h4 : 4 ≤ messageTokens cm.enc m := by
    unfold messageTokens
    omega
  simp only [List.map_cons, List.map_nil, List.sum_cons, List.sum_nil]
  omega

/-- Witness for C7 at a concrete conversation and appended message. -/
theorem count_tokens_append_strict_mono_witness :
    (umsg "hello").nonempty
    ∧ cmLarge.count_tokens convTen < cmLarge.count_tokens (convTen ++ [umsg "hello"])
    ∧ 0 ≤ (cmLarge.count_tokens convTen : Int) :=
  ⟨Or.inl (by decide),
   (count_tokens_append_strict_mono cmLarge convTen (umsg "hello")
      (Or.inl (by decide))).1,
   (count_tokens_append_strict_mono cmLarge convTen (umsg "hello")
      (Or.inl (by decide))).2⟩

/-- C2 counterexample: `convTen` costs 50 > 45 available tokens; the message at
index 1 is dropped by the intermediate path, yet the output contains no
synthetic system marker at all (every output message has a non-"system" role),
so dropped middle messages are *not* replaced by a marker. -/
theorem smart_truncate_silent_drop_counterexample :
    (cmTight.count_tokens convTen : Int) > cmTight.available_tokens
    ∧ umsg "b" ∈ convTen
    ∧ umsg "b" ∉ cmTight.smart_truncate convTen true
    ∧ (cmTight.smart_truncate convTen true).all (fun m => m.role != "system")
        = true := by
  refine ⟨by decide, by decide, by decide, by decide⟩

/-- C2 amended: when the conversation is over budget, middle messages that are
neither important nor recent are dropped silently on the intermediate path
(no marker is inserted there); the single synthetic system marker appears only
when the intermediate reduction still exceeds the budget, and the count it
states is the number of important middle messages, not the total number of
removed messages. -/
theorem smart_truncate_marker_only_on_fallback (cm : ContextWindowManager)
    (conversation : List Message) (preserve_tool_results : Bool)
    (h1 : ¬ (cm.count_tokens conversation : Int) ≤ cm.available_tokens) :
    (¬ (cm.count_tokens
        (initialTask conversation
          ++ importantMessages preserve_tool_results conversation
          ++ recentMessages conversation) : Int) > cm.available_tokens →
      cm.smart_truncate conversation preserve_tool_results
        = initialTask conversation
            ++ importantMessages preserve_tool_results conversation
            ++ recentMessages conversation)
    ∧ ((cm.count_tokens
        (initialTask conversation
          ++ importantMessages preserve_tool_results conversation
          ++ recentMessages conversation) : Int) > cm.available_tokens →
      cm.smart_truncate conversation preserve_tool_results
        = initialTask conversation
            ++ [summaryMessage
                  (importantMessages preserve_tool_results conversation).length]
            ++ takeLast 6 (recentMessages conversation)) :=
  ⟨smart_truncate_middle_path cm conversation preserve_tool_results h1,
   smart_truncate_fallback cm conversation preserve_tool_results h1⟩

/-- Witness for the amended C2, exercising both branches at concrete inputs:
the intermediate path on `convTen` (over budget, marker-free output) and the
fallback on `convNine` (marker with count 0 inserted). -/
theorem smart_truncate_marker_only_on_fallback_witness :
    cmTight.smart_truncate convTen true
      = initialTask convTen ++ importantMessages true convTen
          ++ recentMessages convTen
    ∧ cmNarrow.smart_truncate convNine true
        = initialTask convNine
            ++ [summaryMessage (importantMessages true convNine).length]
            ++ takeLast 6 (recentMessages convNine) :=
  ⟨(smart_truncate_marker_only_on_fallback cmTight convTen true (by decide)).1
      (by decide),
   (smart_truncate_marker_only_on_fallback cmNarrow convNine true (by decide)).2
      (by decide)⟩

/-- C5 counterexample: on `convNine` (37 tokens against 36 available) the
fallback inserts the summary message, whose own cost makes the result *larger*
than the input — `reduce` can increase the token count. -/
theorem smart_truncate_can_increase_count_counterexample :
    cmNarrow.count_tokens convNine
      < cmNarrow.count_tokens (cmNarrow.smart_truncate convNine true) := by
  decide

/-- C5 amended: for every conversation, either the result of `smart_truncate`
fits the available budget, or it is the minimal-guarantee shape — initial task
plus one compression marker plus the last at most 6 recent messages.  (The
token count of the result may exceed that of the input because of the marker's
own cost, so "never increases size" does not hold.) -/
theorem smart_truncate_fits_or_minimal_shape (cm : ContextWindowManager)
    (conversation : List Message) (preserve_tool_results : Bool) :
    (cm.count_tokens (cm.smart_truncate conversation preserve_tool_results) : Int)
        ≤ cm.available_tokens
    ∨ (cm.smart_truncate conversation preserve_tool_results
        = initialTask conversation
            ++ [summaryMessage
                  (importantMessages preserve_tool_results conversation).length]
            ++ takeLast 6 (recentMessages conversation)
       ∧ (takeLast 6 (recentMessages conversation)).length ≤ 6) := by
  by_cases h1 : (cm.count_tokens conversation : Int) ≤ cm.available_tokens
  · left
    rw [smart_truncate_fast_path cm conversation preserve_tool_results h1]
    exact h1
  · by_cases h2 : (cm.count_tokens
        (initialTask conversation
          ++ importantMessages preserve_tool_results conversation
          ++ recentMessages conversation) : Int) > cm.available_tokens
    · right
      exact ⟨smart_truncate_fallback cm conversation preserve_tool_results h1 h2,
        takeLast_length_le 6 _⟩
    · left
      rw [smart_truncate_middle_path cm conversation preserve_tool_results h1 h2]
      omega

/-- C6 counterexample: on `convWithTool` with a zero budget, the first pass
inserts a marker counting 1 important message, and the second pass replaces it
by a marker counting 0 — `smart_truncate` is not idempotent on its own
output. -/
theorem smart_truncate_not_idempotent_counterexample :
    cmZero.smart_truncate (cmZero.smart_truncate convWithTool true) true
      ≠ cmZero.smart_truncate convWithTool true := by
  decide

/-- C6 amended: `smart_truncate` is idempotent on every output that fits the
available budget (in particular on all fast-path and successful
intermediate-path outputs); only a fallback output that still exceeds the
budget can be reduced differently a second time. -/
theorem smart_truncate_idempotent_when_fits (cm : ContextWindowManager)
    (conversation : List Message) (preserve_tool_results : Bool)
    (h : (cm.count_tokens (cm.smart_truncate conversation preserve_tool_results) : Int)
        ≤ cm.available_tokens) :
    cm.smart_truncate (cm.smart_truncate conversation preserve_tool_results)
        preserve_tool_results
      = cm.smart_truncate conversation preserve_tool_results :=
  smart_truncate_fast_path cm _ preserve_tool_results h

/-- Witness for the amended C6 at a concrete conversation whose reduction fits
the budget. -/
theorem smart_truncate_idempotent_when_fits_witness :
    (cmTight.count_tokens (cmTight.smart_truncate convTen true) : Int)
        ≤ cmTight.available_tokens
    ∧ cmTight.smart_truncate (cmTight.smart_truncate convTen true) true
        = cmTight.smart_truncate convTen true :=
  ⟨by decide, smart_truncate_idempotent_when_fits cmTight convTen true (by decide)⟩

/-- C9: every message of `smart_truncate`'s output other than the single
synthetic summary message comes from the input and in the input's relative
order (the output, minus the possible marker, is a subsequence of the input);
and for a non-empty over-budget input the output starts with the input's first
message. -/
theorem smart_truncate_subsequence_and_head (cm : ContextWindowManager)
    (conversation : List Message) (preserve_tool_results : Bool) :
    (List.Sublist (cm.smart_truncate conversation preserve_tool_results)
        conversation
     ∨ ∃ k l1 l2,
        cm.smart_truncate conversation preserve_tool_results
          = l1 ++ [summaryMessage k] ++ l2
        ∧ List.Sublist (l1 ++ l2) conversation)
    ∧ (conversation ≠ [] →
        ¬ (cm.count_tokens conversation : Int) ≤ cm.available_tokens →
        (cm.smart_truncate conversation preserve_tool_results).head?
          = conversation.head?) :=
  ⟨smart_truncate_shape cm conversation preserve_tool_results,
   fun hne h1 => smart_truncate_head cm conversation preserve_tool_results hne h1⟩

/-- Witness for C9 at a concrete non-empty over-budget conversation. -/
theorem smart_truncate_subsequence_and_head_witness :
    convTen ≠ []
    ∧ ¬ (cmTight.count_tokens convTen : Int) ≤ cmTight.available_tokens
    ∧ (cmTight.smart_truncate convTen true).head? = convTen.head? :=
  ⟨by decide, by decide,
   (smart_truncate_subsequence_and_head cmTight convTen true).2 (by decide)
     (by decide)⟩

/-- C8: trimming is a non-destructive projection — `_prepare_context` returns
the agent state exactly as it found it (the stored conversation is neither
reassigned nor mutated), and the returned outbound list is a derived view:
the system prompt followed by `smart_truncate` of the stored conversation,
which by `smart_truncate_shape` only selects input messages (plus at most one
synthetic marker). -/
theorem prepare_context_preserves_conversation (cm : ContextWindowManager)
    (system_prompt_content : String) (agent : InfiniteAgentState) :
    (_prepare_context cm system_prompt_content agent).1 = agent
    ∧ (_prepare_context cm system_prompt_content agent).1.conversation
        = agent.conversation
    ∧ (_prepare_context cm system_prompt_content agent).2
        = systemMessage system_prompt_content
            :: cm.smart_truncate agent.conversation true
    ∧ (List.Sublist (cm.smart_truncate agent.conversation true) agent.conversation
       ∨ ∃ k l1 l2,
          cm.smart_truncate agent.conversation true
            = l1 ++ [summaryMessage k] ++ l2
          ∧ List.Sublist (l1 ++ l2) agent.conversation) :=
  ⟨rfl, rfl, rfl, smart_truncate_shape cm agent.conversation true⟩

/-! ### Claims about the infinite agent -/

/-- An indefinite-mode agent suspended at `clarification_received.wait()`:
state `WAITING_FOR_CLARIFICATION`, no stop recorded, gate cleared (the loop
clears it right before waiting). -/
def suspendedAgent : InfiniteAgentState :=
  { state := AgentStatesEnum.WAITING_FOR_CLARIFICATION,
    user_requested_stop := false,
    clarification_received := false,
    conversation := [umsg "Task: demo"] }

/-- C1 (failing input): sending the stop phrase "stop" through the
chat-completions continuation endpoint to a suspended indefinite agent sets
the state to `COMPLETED` and records the stop request, but the
`clarification_received` gate stays cleared — `create_chat_completion` sets it
only when `user_requested_stop` is false, so the loop suspended on the gate
never observes the stop and never exits. -/
theorem stop_phrase_leaves_resume_gate_closed :
    (create_chat_completion_continuation suspendedAgent "stop").state
        = AgentStatesEnum.COMPLETED
    ∧ (create_chat_completion_continuation suspendedAgent "stop").user_requested_stop
        = true
    ∧ (create_chat_completion_continuation suspendedAgent "stop").clarification_received
        = false := by
  decide

lemma select_action_interception_stop_flag (st : InfiniteAgentState)
    (tool : ToolKind) (is_infinite : Bool) (tool_status : AgentStatesEnum) :
    (select_action_interception st tool is_infinite tool_status).user_requested_stop
      = st.user_requested_stop := by
  unfold select_action_interception
  split <;> rfl

lemma select_action_interception_state (st : InfiniteAgentState)
    (tool : ToolKind) (is_infinite : Bool) (tool_status : AgentStatesEnum) :
    (select_action_interception st tool is_infinite tool_status).state
        = AgentStatesEnum.RESEARCHING
    ∨ (select_action_interception st tool is_infinite tool_status).state
        = st.state := by
  unfold select_action_interception
  split
  · exact Or.inl rfl
  · exact Or.inr rfl

lemma action_phase_stop_flag (st : InfiniteAgentState) (tool : ToolKind)
    (result : Message) :
    (action_phase st tool result).user_requested_stop = st.user_requested_stop := by
  unfold action_phase
  split <;> rfl

lemma action_phase_state_of_ne (st : InfiniteAgentState) (tool : ToolKind)
    (result : Message) (h : tool ≠ ToolKind.FinalAnswerTool) :
    (action_phase st tool result).state = st.state := by
  unfold action_phase
  rw [if_neg h]

lemma execute_post_action_stop_flag (st : InfiniteAgentState) (tool : ToolKind) :
    (execute_post_action st tool).user_requested_stop = st.user_requested_stop := by
  unfold execute_post_action
  split
  · rfl
  · split <;> rfl

lemma execute_post_action_clarification (st : InfiniteAgentState) :
    (execute_post_action st ToolKind.ClarificationTool).state
      = AgentStatesEnum.WAITING_FOR_CLARIFICATION := by
  unfold execute_post_action
  rw [if_pos rfl]

lemma execute_post_action_final_no_stop (st : InfiniteAgentState)
    (h : st.user_requested_stop = false) :
    (execute_post_action st ToolKind.FinalAnswerTool).state
      = AgentStatesEnum.WAITING_FOR_CLARIFICATION := by
  unfold execute_post_action
  rw [if_neg (by simp), if_pos ⟨rfl, h⟩]

lemma execute_post_action_other (st : InfiniteAgentState) :
    execute_post_action st ToolKind.OtherTool = st := by
  unfold execute_post_action
  rw [if_neg (by simp), if_neg (by simp)]

/-- The continuation endpoint can only produce `COMPLETED` with the stop flag
set: the stop branch sets both, the non-stop branch leaves or resets the state
to a non-terminal one. -/
lemma continuation_inv (s : InfiniteAgentState) (msg : String) :
    AgentInv (create_chat_completion_continuation s msg) := by
  intro hc
  unfold create_chat_completion_continuation continue_conversation at hc ⊢
  by_cases hphrase : stopPhrases.contains (pyStrip (pyLower msg))
  · simp only [hphrase, if_pos] at hc ⊢
    simp
  · simp only [hphrase, Bool.false_eq_true, if_false] at hc ⊢
    by_cases hfin : FINISH_STATES.contains
        ({ s with conversation := s.conversation ++ [userMessage msg] }).state
    · simp only [hfin, if_pos] at hc ⊢
      split at hc <;> simp_all
    · simp only [hfin, Bool.false_eq_true, if_false] at hc ⊢
      split at hc <;>
        simp_all [FINISH_STATES, AgentStatesEnum.COMPLETED]

/-- C3: in indefinite mode, an iteration whose selected action is a
`FinalAnswerTool` with no stop recorded ends in `WAITING_FOR_CLARIFICATION`,
never `COMPLETED`; and across every modelled transition `COMPLETED` is only
reachable with the stop signal recorded (`AgentInv` is inductive). -/
theorem final_answer_without_stop_waits (st : InfiniteAgentState)
    (tool_status : AgentStatesEnum) (result : Message)
    (h : st.user_requested_stop = false) :
    (execute_iteration st ToolKind.FinalAnswerTool tool_status result).state
        = AgentStatesEnum.WAITING_FOR_CLARIFICATION
    ∧ (execute_iteration st ToolKind.FinalAnswerTool tool_status result).state
        ≠ AgentStatesEnum.COMPLETED
    ∧ ∀ s s', AgentInv s → AgentStep s s' → AgentInv s' := by
  have hmain :
      (execute_iteration st ToolKind.FinalAnswerTool tool_status result).state
        = AgentStatesEnum.WAITING_FOR_CLARIFICATION := by
    unfold execute_iteration
    apply execute_post_action_final_no_stop
    rw [action_phase_stop_flag, select_action_interception_stop_flag]
    exact h
  refine ⟨hmain, by rw [hmain]; simp, ?_⟩
  intro s s' hInv hStep
  cases hStep with
  | iteration tool tool_status result =>
      cases tool with
      | ClarificationTool =>
          intro hc
          rw [execute_iteration, execute_post_action_clarification] at hc
          exact absurd hc (by simp)
      | FinalAnswerTool =>
          intro hc
          by_cases hstop : s.user_requested_stop = true
          · rw [execute_iteration, execute_post_action_stop_flag,
              action_phase_stop_flag, select_action_interception_stop_flag]
            exact hstop
          · rw [Bool.not_eq_true] at hstop
            rw [execute_iteration, execute_post_action_final_no_stop _
              (by rw [action_phase_stop_flag,
                select_action_interception_stop_flag]; exact hstop)] at hc
            exact absurd hc (by simp)
      | OtherTool =>
          intro hc
          rw [execute_iteration, execute_post_action_other] at hc
          rw [execute_iteration, execute_post_action_other,
            action_phase_stop_flag, select_action_interception_stop_flag]
          rw [action_phase_state_of_ne _ _ _ (by simp)] at hc
          rcases select_action_interception_state s ToolKind.OtherTool true
              tool_status with hstate | hstate
          · rw [hstate] at hc
            exact absurd hc (by simp)
          · rw [hstate] at hc
            exact hInv hc
  | continuation msg =>
      exact continuation_inv s msg

/-- Witness for C3 at a concrete suspended agent and concrete tool result. -/
theorem final_answer_without_stop_waits_witness :
    suspendedAgent.user_requested_stop = false
    ∧ (execute_iteration suspendedAgent ToolKind.FinalAnswerTool
        AgentStatesEnum.COMPLETED (umsg "answer")).state
      = AgentStatesEnum.WAITING_FOR_CLARIFICATION :=
  ⟨rfl,
   (final_answer_without_stop_waits suspendedAgent AgentStatesEnum.COMPLETED
      (umsg "answer") rfl).1⟩

/-! ### Claim about `ReadFileTool` -/

/-- C10: `ReadFileTool.__call__` is total over its error cases — for every
filesystem behavior and every path it returns a string (the embedding is a
total function), and that string is either the file's content (successful
read) or begins with "Error:" (missing path, non-regular file, permission
denied, or any other exception). -/
theorem readfile_returns_content_or_error (fs : FileSystem) (file_path : String) :
    (∃ content, fs.readResult file_path = ReadOutcome.ok content
       ∧ ReadFileTool.call fs file_path = content)
    ∨ ∃ rest, ReadFileTool.call fs file_path = "Error:" ++ rest := by
  unfold ReadFileTool.call
  by_cases h1 : fs.pathExists file_path
  · by_cases h2 : fs.isfile file_path
    · cases hr : fs.readResult file_path with
      | ok content =>
          left
          exact ⟨content, rfl, by simp [h1, h2]⟩
      | permissionError =>
          right
          refine ⟨" Permission denied accessing " ++ file_path, ?_⟩
          simp only [h1, h2, hr, Bool.not_true, Bool.false_eq_true, if_false]
          rw [← String.append_assoc]
          rfl
      | otherError e =>
          right
          refine ⟨" " ++ e, ?_⟩
          simp only [h1, h2, hr, Bool.not_true, Bool.false_eq_true, if_false]
          rw [← String.append_assoc]
          rfl
    · right
      refine ⟨" " ++ file_path ++ " is not a file", ?_⟩
      simp only [h1, h2, Bool.not_true, Bool.not_false, if_true,
        Bool.false_eq_true, if_false]
      rw [← String.append_assoc, ← String.append_assoc]
      rfl
  · right
    refine ⟨" File " ++ file_path ++ " does not exist", ?_⟩
    simp only [h1, Bool.not_false, if_true]
    rw [← String.append_assoc, ← String.append_assoc]
    rfl

end SgrAgentCore
